import Mathlib

/-!
Verification of the thermal-image hotspot analysis route of the
chainflyAgent repository (the `POST` handler of the vision analysis
endpoint, `src/unnamed/part_002`).

The handler is embedded shallowly:
* pixel statistics and the thermal-pattern heuristic are pure functions
  over a list of sampled pixels (the stride-20 grid of the source),
  with JavaScript floating arithmetic idealized as exact rationals;
* the external vision call is a parameter of the handler: either a
  decoded structured result (`VisionOutcome.ok`) or any failure of the
  call (`VisionOutcome.err`, covering timeout, non-2xx, JSON parse
  error — all land in the same `catch (visionError)` block);
* the in-process rate-limit map is a function from client key to an
  optional entry, threaded through the handler;
* request-scoped fields with no decision content (requestId, timestamps,
  processing time, prompt text, the analysis/recommendations passthrough)
  are omitted from the response record.
-/

namespace Chainfly

/-- Constant `MAX_FILE_SIZE = 50 * 1024 * 1024` from the source. -/
def MAX_FILE_SIZE : ℕ := 50 * 1024 * 1024

/-- Constant `ALLOWED_FORMATS` from the source. -/
def ALLOWED_FORMATS : List String := ["jpeg", "jpg", "png", "tiff", "bmp"]

/-- Constant `MAX_IMAGE_DIMENSION = 8192` from the source. -/
def MAX_IMAGE_DIMENSION : ℕ := 8192

/-- Constant `RATE_LIMIT = 100` requests per window, from the source. -/
def RATE_LIMIT : ℕ := 100

/-- Constant `RATE_WINDOW = 3600000` ms, from the source. -/
def RATE_WINDOW : ℕ := 3600000

/-- One sampled pixel of the decoded raster: the `r`, `g`, `b` channel
values read at a grid point of the stride-20 sampling loop. -/
structure Pixel where
  r : ℕ
  g : ℕ
  b : ℕ
deriving DecidableEq, Repr

/-- Value `gray = (r + g + b) / 3` for one sampled pixel. -/
def gray (p : Pixel) : ℚ := ((p.r : ℚ) + p.g + p.b) / 3

/-- The per-pixel contribution to the `colorVariance` accumulator:
`|r - gray| + |g - gray| + |b - gray|`. -/
def pixelVariance (p : Pixel) : ℚ :=
  |(p.r : ℚ) - gray p| + |(p.g : ℚ) - gray p| + |(p.b : ℚ) - gray p|

/-- The quantized histogram key of a pixel: each channel divided by 32
(`Math.floor(c/32)`), the triple standing for the string key
`r32-g32-b32` of the source. -/
def colorKey (p : Pixel) : ℕ × ℕ × ℕ := (p.r / 32, p.g / 32, p.b / 32)

/-- The `colorVariance` accumulator over all sampled pixels. -/
def colorVariance (ps : List Pixel) : ℚ := (ps.map pixelVariance).sum

/-- The distinct keys of `colorHistogram` (a JS `Map` keyed by the
quantized color string; only the key set and its size are consumed). -/
def histKeys (ps : List Pixel) : List (ℕ × ℕ × ℕ) := (ps.map colorKey).dedup

/-- Count `uniqueColors = colorHistogram.size`. -/
def uniqueColors (ps : List Pixel) : ℕ := (histKeys ps).length

/-- Mean `avgColorVariance = colorVariance / totalPixels`; `totalPixels` is the
number of sampled pixels. -/
def avgColorVariance (ps : List Pixel) : ℚ := colorVariance ps / (ps.length : ℚ)

/-- Fraction `redBias`: when `colorVariance > 0`, the fraction of distinct histogram
keys whose (quantized) red strictly exceeds green and blue; `0` otherwise
(the source guards the division with the ternary `colorVariance > 0 ? … : 0`). -/
def redBias (ps : List Pixel) : ℚ :=
  if colorVariance ps > 0 then
    (((histKeys ps).filter fun k => k.1 > k.2.1 && k.1 > k.2.2).length : ℚ)
      / (uniqueColors ps : ℚ)
  else 0

/-- Fraction `blueBias`: as `redBias`, for keys whose blue strictly exceeds red and
green. -/
def blueBias (ps : List Pixel) : ℚ :=
  if colorVariance ps > 0 then
    (((histKeys ps).filter fun k => k.2.2 > k.1 && k.2.2 > k.2.1).length : ℚ)
      / (uniqueColors ps : ℚ)
  else 0

/-- The four derived feature values the classifier consumes. -/
structure Features where
  avgColorVariance : ℚ
  uniqueColors : ℕ
  redBias : ℚ
  blueBias : ℚ
deriving DecidableEq, Repr

/-- The features computed from the sampled pixels. -/
def featuresOf (ps : List Pixel) : Features :=
  { avgColorVariance := avgColorVariance ps
    uniqueColors := uniqueColors ps
    redBias := redBias ps
    blueBias := blueBias ps }

/-- Signal `hasHighColorVariance = avgColorVariance > 50`. -/
def hasHighColorVariance (f : Features) : Bool := f.avgColorVariance > 50

/-- Signal `hasModerateColors = uniqueColors > 50 && uniqueColors < 300`. -/
def hasModerateColors (f : Features) : Bool :=
  f.uniqueColors > 50 && f.uniqueColors < 300

/-- Signal `hasColorGradient = uniqueColors > 100 && avgColorVariance > 100`. -/
def hasColorGradient (f : Features) : Bool :=
  f.uniqueColors > 100 && f.avgColorVariance > 100

/-- Signal `hasThermalBias = redBias > 0.3 || blueBias > 0.3`. -/
def hasThermalBias (f : Features) : Bool :=
  f.redBias > 3 / 10 || f.blueBias > 3 / 10

/-- Verdict `thermalColorPattern`, the heuristic, exactly as the source
combines the signals. -/
def thermalColorPattern (f : Features) : Bool :=
  (hasThermalBias f && hasModerateColors f) ||
  (hasColorGradient f && hasHighColorVariance f) ||
  (f.uniqueColors < 50 && f.avgColorVariance < 10) ||
  (f.avgColorVariance > 150 && f.uniqueColors > 100)

/-- Classification `isThermalImage = demoMode || (imageType === 'thermal' && thermalColorPattern)
|| (imageType !== 'visual' && thermalColorPattern)`. -/
def isThermalImage (demoMode : Bool) (imageType : String) (f : Features) : Bool :=
  demoMode ||
  (imageType == "thermal" && thermalColorPattern f) ||
  (imageType != "visual" && thermalColorPattern f)

/-- The heuristic verdict as the specification words it: the disjunction of
the four spec clauses over the four derived signals (stated separately from
the source transcription so the two can be compared). -/
def thermalColorPatternOfSpec (f : Features) : Bool :=
  ((f.redBias > 3 / 10 || f.blueBias > 3 / 10) &&
    (f.uniqueColors > 50 && f.uniqueColors < 300)) ||
  ((f.uniqueColors > 100 && f.avgColorVariance > 100) &&
    f.avgColorVariance > 50) ||
  (f.uniqueColors < 50 && f.avgColorVariance < 10) ||
  (f.avgColorVariance > 150 && f.uniqueColors > 100)

/-- The final classification as the specification words it: `demoMode`
forces thermal; otherwise an explicit `thermal` declaration with heuristic
agreement, or a non-`visual` declaration with heuristic agreement. -/
def isThermalImageOfSpec (demoMode : Bool) (imageType : String) (f : Features) : Bool :=
  demoMode ||
  (imageType == "thermal" && thermalColorPatternOfSpec f) ||
  (imageType != "visual" && thermalColorPatternOfSpec f)

/-! ### JavaScript `||`-defaulting helpers

`x || d` in the source replaces both an absent field and a falsy present
value (`0`, the empty string) by the default. -/

/-- JS `v || d` for an optional number: absent or zero gives the default. -/
def jsOrQ (v : Option ℚ) (d : ℚ) : ℚ :=
  match v with
  | none => d
  | some x => if x = 0 then d else x

/-- JS `v || d` for an optional string: absent or empty gives the default. -/
def jsOrStr (v : Option String) (d : String) : String :=
  match v with
  | none => d
  | some s => if s = "" then d else s

/-- JS `v || null` for an optional number: a present zero collapses to `null`. -/
def jsOrNullQ (v : Option ℚ) : Option ℚ :=
  match v with
  | none => none
  | some x => if x = 0 then none else some x

/-- One hotspot object of the parsed vision JSON, every field possibly
absent (the mapping in the source defaults each one). -/
structure RawHotspot where
  x : Option ℚ
  y : Option ℚ
  radius : Option ℚ
  intensity : Option ℚ
  area : Option ℚ
  descr : Option String
deriving DecidableEq, Repr

/-- A normalized hotspot of the response, after the mapping
`x: Math.round(h.x || 0), y: Math.round(h.y || 0),
radius: Math.round(h.radius || 20), intensity: Math.round(h.intensity || 50),
area: h.area || 1000, description: h.description || 'Thermal anomaly detected'`.
`round` is Mathlib's `⌊x + 1/2⌋`, which agrees with JS `Math.round`. -/
structure Hotspot where
  x : ℤ
  y : ℤ
  radius : ℤ
  intensity : ℤ
  area : ℚ
  descr : String
deriving DecidableEq, Repr

/-- The per-hotspot normalization mapping of the source. -/
def normalizeHotspot (h : RawHotspot) : Hotspot :=
  { x := round (jsOrQ h.x 0)
    y := round (jsOrQ h.y 0)
    radius := round (jsOrQ h.radius 20)
    intensity := round (jsOrQ h.intensity 50)
    area := jsOrQ h.area 1000
    descr := jsOrStr h.descr "Thermal anomaly detected" }

/-- The decoded JSON of a successful vision call; each consumed field may
be absent. `hotspots = none` stands for a JSON without a `hotspots` array
(the source writes `visionResult.hotspots || []`). -/
structure VisionResult where
  hotspots : Option (List RawHotspot)
  severity : Option String
  maxTemperature : Option ℚ
  confidence : Option ℚ
deriving DecidableEq, Repr

/-- The outcome of the external vision call: a decoded result, or any
failure (timeout, non-2xx, malformed body, JSON parse error — all reach
the same `catch (visionError)` block). -/
inductive VisionOutcome where
  | ok (v : VisionResult)
  | err
deriving DecidableEq, Repr

/-- Holds (`true`) exactly on a decoded result. -/
def VisionOutcome.isOk : VisionOutcome → Bool
  | .ok _ => true
  | .err => false

/-- The claim-relevant fields of a 200-status JSON response body
(`message`/`errorTag` are the optional `metadata.message` and
`metadata.error` fields; identifiers and timestamps are omitted). -/
structure ApiResponse where
  hotspots : List Hotspot
  severity : String
  confidence : ℚ
  totalHotspots : ℕ
  maxTemperature : Option ℚ
  affectedArea : ℤ
  message : Option String
  errorTag : Option String
deriving DecidableEq, Repr

/-- The non-thermal short-circuit response of the source (returned with no
explicit status, hence 200). -/
def nonThermalResponse : ApiResponse :=
  { hotspots := []
    severity := "none"
    confidence := 95 / 100
    totalHotspots := 0
    maxTemperature := none
    affectedArea := 0
    message := some "Image does not appear to be a thermal image"
    errorTag := none }

/-- The degraded response of the `catch (visionError)` block (returned with
no explicit status, hence 200). -/
def visionErrorResponse : ApiResponse :=
  { hotspots := []
    severity := "unknown"
    confidence := 1 / 2
    totalHotspots := 0
    maxTemperature := none
    affectedArea := 0
    message := some "Advanced analysis temporarily unavailable. Please try again."
    errorTag := some "vision_api_error" }

/-- Assembly of the success response from a decoded vision result, on the
thermal path (`isThermalImage` true there, so the base confidence is 0.85).
After the mapping every hotspot's `area` is nonzero, so the
`h.area || Math.PI * h.radius * h.radius` fallback inside the total-area
sum never fires and the sum is the plain sum of areas
(`normalizeHotspot_area_ne_zero` below). -/
def assembleSuccess (v : VisionResult) : ApiResponse :=
  let hotspots := (v.hotspots.getD []).map normalizeHotspot
  let aiConfidence := jsOrQ v.confidence (85 / 100)
  let totalArea := (hotspots.map Hotspot.area).sum
  { hotspots := hotspots.take 50
    severity := jsOrStr v.severity "medium"
    confidence :=
      if aiConfidence = 0 then 85 / 100
      else if aiConfidence > 1 then aiConfidence / 100 else aiConfidence
    totalHotspots := hotspots.length
    maxTemperature := jsOrNullQ v.maxTemperature
    affectedArea := round (totalArea / 100)
    message := none
    errorTag := none }

/-! ### Rate limiter -/

/-- One entry of `rateLimitStore`: `{count, resetTime}` (times in ms). -/
structure RateEntry where
  count : ℕ
  resetTime : ℕ
deriving DecidableEq, Repr

/-- Outcome of the rate-limit block: a 429 rejection carrying
`retryAfter = Math.ceil((resetTime - now)/1000)` seconds, or fall-through. -/
inductive RateOutcome where
  | reject (retryAfter : ℤ)
  | proceed
deriving DecidableEq, Repr

/-- The rate-limit block of the handler for one client key: given the
stored entry and `now`, the outcome and the entry left in the store.
Mirrors the source: an active-window entry at the cap rejects (store
untouched); an expired entry is reset to `{count 1, now + RATE_WINDOW}`;
an active entry below the cap is incremented; a missing entry is created
with count 1. -/
def rateLimitStep (entry : Option RateEntry) (now : ℕ) : RateOutcome × Option RateEntry :=
  match entry with
  | some u =>
    if u.resetTime > now ∧ u.count ≥ RATE_LIMIT then
      (.reject ⌈((u.resetTime - now : ℕ) : ℚ) / 1000⌉, some u)
    else if u.resetTime ≤ now then
      (.proceed, some ⟨1, now + RATE_WINDOW⟩)
    else
      (.proceed, some ⟨u.count + 1, u.resetTime⟩)
  | none => (.proceed, some ⟨1, now + RATE_WINDOW⟩)

/-! ### The request handler -/

/-- The rate-limit store: client key to optional entry. -/
def RateStore : Type := String → Option RateEntry

/-- The decision-relevant content of one incoming request.
`hasFile` is `file && file instanceof File`; `fileExt` is the value of
`file.name.split('.').pop()?.toLowerCase()` (the lowercased last
`.`-separated segment of the file name; an absent/empty extension is the
empty string, which is never in the allowed list — the source rejects it
through the same membership test); `readTimeout` marks the `Promise.race`
file-read timeout (which throws into the outer catch); `decodeOk`,
`width`, `height` are the sharp-metadata outcome (`0` standing for an
absent dimension); `samples` is the stride-20 pixel grid of the decoded
raster. -/
structure RequestInput where
  clientIp : String
  hasFile : Bool
  fileSize : ℕ
  fileExt : String
  imageTypeField : Option String
  demoModeField : Option String
  readTimeout : Bool
  decodeOk : Bool
  width : ℕ
  height : ℕ
  samples : List Pixel

/-- Field read `formData.get('imageType') as string || 'auto'`. -/
def RequestInput.imageType (req : RequestInput) : String :=
  jsOrStr req.imageTypeField "auto"

/-- Field read `formData.get('demoMode') === 'true'`. -/
def RequestInput.demoMode (req : RequestInput) : Bool :=
  req.demoModeField == some "true"

/-- The classifier features of this request's sampled pixels. -/
def RequestInput.features (req : RequestInput) : Features :=
  featuresOf req.samples

/-- The handler's outcome: the constructor fixes the HTTP status
(429 / 400 / 200 / 500). -/
inductive Outcome where
  | rateLimited (retryAfter : ℤ)
  | badRequest (msg : String)
  | ok (r : ApiResponse)
  | internalError
deriving DecidableEq, Repr

/-- The HTTP status of an outcome. -/
def Outcome.status : Outcome → ℕ
  | .rateLimited _ => 429
  | .badRequest _ => 400
  | .ok _ => 200
  | .internalError => 500

/-- Holds (`true`) exactly on the 429 outcome. -/
def Outcome.isRateLimited : Outcome → Bool
  | .rateLimited _ => true
  | _ => false

/-- Holds (`true`) exactly on the 500 outcome. -/
def Outcome.isInternalError : Outcome → Bool
  | .internalError => true
  | _ => false

/-- What one run of the handler produced: the outcome, the rate-limit
store left behind, whether the external vision call was made, and whether
the `[AUDIT]` record was written (the source logs it only on the success
return and in the outer catch). -/
structure HandlerResult where
  outcome : Outcome
  store : RateStore
  visionInvoked : Bool
  auditEmitted : Bool

/-- The `POST` handler, step for step in source order: rate-limit block;
form fields; file-presence, file-size and extension checks; the file read
(whose timeout throws to the outer catch, a 500 with audit emission);
decode/dimension validation; thermal classification with the non-thermal
short-circuit; the vision call with its catch-all degraded response; and
the success assembly with audit emission. -/
def handle (store : RateStore) (now : ℕ) (req : RequestInput)
    (vision : VisionOutcome) : HandlerResult :=
  let key := req.clientIp
  let rl := rateLimitStep (store key) now
  let store' : RateStore := fun k => if k = key then rl.2 else store k
  match rl.1 with
  | .reject ra => ⟨.rateLimited ra, store', false, false⟩
  | .proceed =>
    if req.hasFile = false then
      ⟨.badRequest "Please provide a valid image file", store', false, false⟩
    else if req.fileSize > MAX_FILE_SIZE then
      ⟨.badRequest "File size exceeds maximum allowed size of 50MB", store', false, false⟩
    else if (ALLOWED_FORMATS.contains req.fileExt) = false then
      ⟨.badRequest "Invalid file format. Allowed formats: jpeg, jpg, png, tiff, bmp",
        store', false, false⟩
    else if req.readTimeout then
      ⟨.internalError, store', false, true⟩
    else if (req.decodeOk && req.width != 0 && req.height != 0 &&
        req.width ≤ MAX_IMAGE_DIMENSION && req.height ≤ MAX_IMAGE_DIMENSION) = false then
      ⟨.badRequest "Invalid or corrupted image file. Please upload a valid image.",
        store', false, false⟩
    else if isThermalImage req.demoMode req.imageType req.features = false then
      ⟨.ok nonThermalResponse, store', false, false⟩
    else
      match vision with
      | .err => ⟨.ok visionErrorResponse, store', true, false⟩
      | .ok v => ⟨.ok (assembleSuccess v), store', true, true⟩

/-- The checks between the rate-limit block and the thermal classification
all pass: present file, size within bound, allowed extension, no read
timeout, clean decode within the dimension ceiling. -/
def passesChecks (req : RequestInput) : Prop :=
  req.hasFile = true ∧
  req.fileSize ≤ MAX_FILE_SIZE ∧
  req.fileExt ∈ ALLOWED_FORMATS ∧
  req.readTimeout = false ∧
  req.decodeOk = true ∧ req.width ≠ 0 ∧ req.height ≠ 0 ∧
  req.width ≤ MAX_IMAGE_DIMENSION ∧ req.height ≤ MAX_IMAGE_DIMENSION

instance (req : RequestInput) : Decidable (passesChecks req) := by
  unfold passesChecks
  infer_instance

/-! ### Concrete inputs used by witnesses and counterexamples -/

/-- The 51-hotspot service response used to witness C4. -/
def c4vision : VisionResult :=
  { hotspots := some (List.replicate 51 ⟨none, none, none, none, none, none⟩)
    severity := none
    maxTemperature := none
    confidence := none }

/-- The service-confidence rule exactly as the claim words it: a present
value above 1 is divided by 100, any other present value is left
unchanged, and only an absent value falls back to the 0.85 placeholder. -/
def confidenceOfClaim (c : Option ℚ) : ℚ :=
  match c with
  | none => 85 / 100
  | some x => if x > 1 then x / 100 else x

/-- A service response carrying an explicit `confidence` of `0`. -/
def c5vision : VisionResult :=
  { hotspots := none
    severity := none
    maxTemperature := none
    confidence := some 0 }

/-- A service response with an out-of-range hotspot `x` of 150. -/
def c7vision : VisionResult :=
  { hotspots := some [⟨some 150, some 40, none, none, none, none⟩]
    severity := none
    maxTemperature := none
    confidence := none }

/-- The in-range service response used to witness C7 (amended). -/
def c7okVision : VisionResult :=
  { hotspots := some [⟨some 30, some 70, none, none, none, none⟩]
    severity := none
    maxTemperature := none
    confidence := none }

/-- The empty rate-limit store. -/
def emptyStore : RateStore := fun _ => none

/-- A request that passes every check and is classified thermal through
`demoMode`. -/
def c1req : RequestInput :=
  { clientIp := "203.0.113.7"
    hasFile := true
    fileSize := 1000
    fileExt := "jpg"
    imageTypeField := some "thermal"
    demoModeField := some "true"
    readTimeout := false
    decodeOk := true
    width := 640
    height := 480
    samples := [⟨10, 20, 30⟩] }

/-- A request passing every check, declared `visual`, without demo mode. -/
def c3req : RequestInput :=
  { clientIp := "198.51.100.23"
    hasFile := true
    fileSize := 2048
    fileExt := "png"
    imageTypeField := some "visual"
    demoModeField := none
    readTimeout := false
    decodeOk := true
    width := 800
    height := 600
    samples := [⟨200, 30, 40⟩] }

/-- A syntactically valid request used for the rate-limit witness. -/
def c6req : RequestInput :=
  { clientIp := "198.51.100.9"
    hasFile := true
    fileSize := 10
    fileExt := "jpg"
    imageTypeField := none
    demoModeField := some "true"
    readTimeout := false
    decodeOk := true
    width := 10
    height := 10
    samples := [] }

/-- A store holding a full window (100 requests, reset at t = 5000 ms)
for the witness client. -/
def c6store : RateStore :=
  fun k => if k = "198.51.100.9" then some ⟨100, 5000⟩ else none

/-- A request with no usable file upload, for the C10 counterexample. -/
def c10req : RequestInput :=
  { clientIp := "192.0.2.1"
    hasFile := false
    fileSize := 0
    fileExt := ""
    imageTypeField := none
    demoModeField := none
    readTimeout := false
    decodeOk := false
    width := 0
    height := 0
    samples := [] }

/-! ## Theorems -/

/-- C2: the final thermal classification is exactly the spec's function of
the four derived features and the `demoMode`/`imageType` hints —
`demoMode` forces true; otherwise a declared `thermal` with heuristic
agreement, or a non-`visual` declaration with heuristic agreement, where
the heuristic is the four-clause disjunction over the derived signals; and
an explicit `visual` declaration is overridden only by `demoMode`. -/
theorem c2_classification_matches_spec (demo : Bool) (imageType : String)
    (f : Features) :
    isThermalImage demo imageType f = isThermalImageOfSpec demo imageType f ∧
    isThermalImage demo "visual" f = demo := by
  refine ⟨rfl, ?_⟩
  cases demo <;> simp [isThermalImage]

/-- C8: when the `colorVariance` accumulator is zero, both bias fractions
are zero (no NaN, no exception), the thermal-bias, color-gradient and
high-contrast clauses of the verdict are all unsatisfiable, and the
heuristic holds exactly when `uniqueColors < 50` — the near-grayscale
clause (its `avgColorVariance < 10` half being automatic). -/
theorem c8_zero_variance_safe (ps : List Pixel) (_hne : ps ≠ [])
    (hzero : colorVariance ps = 0) :
    redBias ps = 0 ∧ blueBias ps = 0 ∧
    hasThermalBias (featuresOf ps) = false ∧
    hasColorGradient (featuresOf ps) = false ∧
    ((featuresOf ps).avgColorVariance > 150 && (featuresOf ps).uniqueColors > 100)
      = false ∧
    (thermalColorPattern (featuresOf ps) = true ↔ uniqueColors ps < 50) := by
  have havg : avgColorVariance ps = 0 := by
    unfold avgColorVariance
    rw [hzero]
    exact zero_div _
  have hred : redBias ps = 0 := by
    unfold redBias
    rw [hzero]
    simp
  have hblue : blueBias ps = 0 := by
    unfold blueBias
    rw [hzero]
    simp
  refine ⟨hred, hblue, ?_, ?_, ?_, ?_⟩
  · simp [hasThermalBias, featuresOf, hred, hblue]
    norm_num
  · simp [hasColorGradient, featuresOf, havg]
  · simp [featuresOf, havg]
  · simp [thermalColorPattern, hasThermalBias, hasColorGradient,
      hasModerateColors, hasHighColorVariance, featuresOf, hred, hblue, havg]
    norm_num

/-- After the normalization mapping, a hotspot's `area` is never zero, so
the `h.area || Math.PI * h.radius * h.radius` fallback inside the
total-area reduction is dead code on mapped hotspots. -/
theorem normalizeHotspot_area_ne_zero (h : RawHotspot) :
    (normalizeHotspot h).area ≠ 0 := by
  unfold normalizeHotspot jsOrQ
  rcases h.area with _ | x
  · norm_num
  · dsimp only
    split
    · norm_num
    · assumption

/-- Nonnegativity `0 ≤ q` carries over to JS `Math.round` (Mathlib's `round`). -/
theorem round_nonneg_of_nonneg {q : ℚ} (h : 0 ≤ q) : 0 ≤ round q := by
  rw [round_eq]
  exact Int.le_floor.mpr (by push_cast; linarith)

/-- Bound `q ≤ 100` carries over to JS `Math.round` (Mathlib's `round`). -/
theorem round_le_hundred {q : ℚ} (h : q ≤ 100) : round q ≤ 100 := by
  rw [round_eq]
  have h100 : (⌊(100 : ℚ) + 1 / 2⌋ : ℤ) = 100 := by
    rw [Int.floor_eq_iff]
    norm_num
  calc ⌊q + 1 / 2⌋ ≤ ⌊(100 : ℚ) + 1 / 2⌋ := Int.floor_le_floor (by linarith)
    _ = 100 := h100

/-- C4: the assembled hotspot list is the 50-truncation of the normalized
service list: with more than 50 hotspots exactly the first 50 survive in
order; with at most 50 all survive. -/
theorem c4_hotspot_cap (v : VisionResult) :
    (assembleSuccess v).hotspots =
      ((v.hotspots.getD []).map normalizeHotspot).take 50 ∧
    (50 < ((v.hotspots.getD []).map normalizeHotspot).length →
      (assembleSuccess v).hotspots.length = 50) ∧
    (((v.hotspots.getD []).map normalizeHotspot).length ≤ 50 →
      (assembleSuccess v).hotspots = (v.hotspots.getD []).map normalizeHotspot) ∧
    (∀ i : ℕ, i < 50 →
      (assembleSuccess v).hotspots[i]? =
        ((v.hotspots.getD []).map normalizeHotspot)[i]?) := by
  have he : (assembleSuccess v).hotspots =
      ((v.hotspots.getD []).map normalizeHotspot).take 50 := rfl
  refine ⟨he, ?_, ?_, ?_⟩
  · intro h50
    rw [he, List.length_take]
    exact Nat.min_eq_left (Nat.le_of_lt h50)
  · intro hle
    rw [he]
    exact List.take_of_length_le hle
  · intro i hi
    rw [he]
    exact List.getElem?_take_of_lt hi

/-- Witness for C4: with 51 service hotspots, exactly 50 are assembled and
index 0 survives in place. -/
theorem c4_hotspot_cap_witness :
    50 < ((c4vision.hotspots.getD []).map normalizeHotspot).length ∧
    (assembleSuccess c4vision).hotspots.length = 50 ∧
    (assembleSuccess c4vision).hotspots[0]? =
      ((c4vision.hotspots.getD []).map normalizeHotspot)[0]? := by
  have hlen : ((c4vision.hotspots.getD []).map normalizeHotspot).length = 51 := by
    simp [c4vision]
  have h := c4_hotspot_cap c4vision
  exact ⟨by rw [hlen]; norm_num,
    h.2.1 (by rw [hlen]; norm_num),
    h.2.2.2 0 (by norm_num)⟩

/-- Counterexample to C5: a service-supplied confidence of `0` is present,
so the claim says it is left unchanged (`0`), but the source's
`visionResult.confidence || 0.85` treats the falsy `0` as absent and the
response carries `0.85`. -/
theorem c5_counterexample :
    c5vision.confidence = some 0 ∧
    confidenceOfClaim c5vision.confidence = 0 ∧
    (assembleSuccess c5vision).confidence = 85 / 100 ∧
    (85 / 100 : ℚ) ≠ 0 := by
  refine ⟨rfl, ?_, ?_, by norm_num⟩
  · simp [confidenceOfClaim, c5vision]
  · simp [assembleSuccess, jsOrQ, c5vision]
    norm_num

/-- C5 amended: the response confidence is the service confidence
normalized by the JS-falsy rule — an absent or zero value gives the 0.85
placeholder, a nonzero value above 1 is divided by 100, any other nonzero
value is left unchanged. -/
theorem c5_confidence_normalization (v : VisionResult) :
    (assembleSuccess v).confidence =
      (match v.confidence with
       | none => 85 / 100
       | some x => if x = 0 then 85 / 100 else if x > 1 then x / 100 else x) := by
  rcases hc : v.confidence with _ | x
  · simp [assembleSuccess, jsOrQ, hc]
    norm_num
  · by_cases hx : x = 0
    · subst hx
      simp [assembleSuccess, jsOrQ, hc]
      norm_num
    · simp [assembleSuccess, jsOrQ, hc, hx]

/-- Counterexample to C7: the mapping rounds but does not clamp — a
service `x` of 150 reaches the response as 150, outside 0–100. -/
theorem c7_counterexample :
    ∃ h ∈ (assembleSuccess c7vision).hotspots, 100 < h.x := by
  refine ⟨normalizeHotspot ⟨some 150, some 40, none, none, none, none⟩, ?_, ?_⟩
  · simp [assembleSuccess, c7vision]
  · show (100 : ℤ) < round (jsOrQ (some 150) 0)
    have : jsOrQ (some 150) 0 = 150 := by norm_num [jsOrQ]
    rw [this]
    norm_num [round_eq, Int.floor_eq_iff]

/-- C7 amended: every assembled hotspot is the rounding-and-defaulting
image of a service hotspot — rounded to integers, not clamped — and its
`x`/`y` lie in 0–100 whenever the service-supplied values (after the
falsy-to-0 defaulting) lie in 0–100; nothing forces out-of-range service
values back into range. -/
theorem c7_coordinates_rounded (v : VisionResult)
    (hin : ∀ r ∈ v.hotspots.getD [],
      0 ≤ jsOrQ r.x 0 ∧ jsOrQ r.x 0 ≤ 100 ∧ 0 ≤ jsOrQ r.y 0 ∧ jsOrQ r.y 0 ≤ 100) :
    ∀ h ∈ (assembleSuccess v).hotspots,
      (∃ r ∈ v.hotspots.getD [],
        h = normalizeHotspot r ∧ h.x = round (jsOrQ r.x 0) ∧
        h.y = round (jsOrQ r.y 0)) ∧
      (0 ≤ h.x ∧ h.x ≤ 100 ∧ 0 ≤ h.y ∧ h.y ≤ 100) := by
  intro h hmem
  have hmem' : h ∈ (v.hotspots.getD []).map normalizeHotspot :=
    List.take_subset _ _ hmem
  rcases List.mem_map.mp hmem' with ⟨r, hr, rfl⟩
  obtain ⟨hx0, hx1, hy0, hy1⟩ := hin r hr
  exact ⟨⟨r, hr, rfl, rfl, rfl⟩,
    round_nonneg_of_nonneg hx0, round_le_hundred hx1,
    round_nonneg_of_nonneg hy0, round_le_hundred hy1⟩

/-- Witness for C7 (amended) at an in-range service response. -/
theorem c7_coordinates_rounded_witness :
    (∀ r ∈ c7okVision.hotspots.getD [],
      0 ≤ jsOrQ r.x 0 ∧ jsOrQ r.x 0 ≤ 100 ∧ 0 ≤ jsOrQ r.y 0 ∧ jsOrQ r.y 0 ≤ 100) ∧
    ∀ h ∈ (assembleSuccess c7okVision).hotspots,
      0 ≤ h.x ∧ h.x ≤ 100 ∧ 0 ≤ h.y ∧ h.y ≤ 100 := by
  have hin : ∀ r ∈ c7okVision.hotspots.getD [],
      0 ≤ jsOrQ r.x 0 ∧ jsOrQ r.x 0 ≤ 100 ∧ 0 ≤ jsOrQ r.y 0 ∧ jsOrQ r.y 0 ≤ 100 := by
    intro r hr
    simp [c7okVision] at hr
    subst hr
    norm_num [jsOrQ]
  exact ⟨hin, fun h hmem => (c7_coordinates_rounded c7okVision hin h hmem).2⟩

/-- Witness for C8 at the one-pixel all-black sample grid. -/
theorem c8_zero_variance_safe_witness :
    (([(⟨0, 0, 0⟩ : Pixel)] ≠ []) ∧ colorVariance [(⟨0, 0, 0⟩ : Pixel)] = 0) ∧
    redBias [(⟨0, 0, 0⟩ : Pixel)] = 0 ∧
    (thermalColorPattern (featuresOf [(⟨0, 0, 0⟩ : Pixel)]) = true ↔
      uniqueColors [(⟨0, 0, 0⟩ : Pixel)] < 50) := by
  have hne : ([(⟨0, 0, 0⟩ : Pixel)] : List Pixel) ≠ [] := by simp
  have hz : colorVariance [(⟨0, 0, 0⟩ : Pixel)] = 0 := by
    norm_num [colorVariance, pixelVariance, gray]
  have h := c8_zero_variance_safe _ hne hz
  exact ⟨⟨hne, hz⟩, h.1, h.2.2.2.2.2⟩

/-- C1: whenever a request passes the rate limiter and all validation,
is classified thermal, and the external vision call fails (in any way —
every failure reaches the same catch block), the handler returns the
200-status degraded response: empty hotspots, severity `unknown`,
confidence 0.5, the temporary-unavailability message and the
`vision_api_error` marker — never a 500. -/
theorem c1_vision_failure_fallback (store : RateStore) (now : ℕ)
    (req : RequestInput)
    (hrl : (rateLimitStep (store req.clientIp) now).1 = .proceed)
    (hchecks : passesChecks req)
    (hthermal : isThermalImage req.demoMode req.imageType req.features = true) :
    (handle store now req .err).visionInvoked = true ∧
    (handle store now req .err).outcome = .ok visionErrorResponse ∧
    (handle store now req .err).outcome.status = 200 ∧
    visionErrorResponse.hotspots = [] ∧
    visionErrorResponse.severity = "unknown" ∧
    visionErrorResponse.confidence = 1 / 2 ∧
    visionErrorResponse.message =
      some "Advanced analysis temporarily unavailable. Please try again." ∧
    visionErrorResponse.errorTag = some "vision_api_error" := by
  obtain ⟨h1, h2, h3, h4, h5, h6, h7, h8, h9⟩ := hchecks
  have h2' : ¬ (req.fileSize > MAX_FILE_SIZE) := not_lt.mpr h2
  simp only [handle, hrl]
  simp [h1, h2', h3, h4, h5, h6, h7, h8, h9, hthermal, Outcome.status,
    visionErrorResponse]

/-- Witness for C1 at a concrete thermal request with a failing vision
call. -/
theorem c1_vision_failure_fallback_witness :
    (rateLimitStep (emptyStore c1req.clientIp) 0).1 = .proceed ∧
    passesChecks c1req ∧
    isThermalImage c1req.demoMode c1req.imageType c1req.features = true ∧
    (handle emptyStore 0 c1req .err).outcome = .ok visionErrorResponse := by
  have hrl : (rateLimitStep (emptyStore c1req.clientIp) 0).1 = .proceed := by
    simp [rateLimitStep, emptyStore]
  have hchecks : passesChecks c1req := by
    simp [passesChecks, c1req, ALLOWED_FORMATS, MAX_FILE_SIZE, MAX_IMAGE_DIMENSION]
  have hthermal : isThermalImage c1req.demoMode c1req.imageType c1req.features
      = true := by
    simp [isThermalImage, RequestInput.demoMode, c1req]
  exact ⟨hrl, hchecks, hthermal,
    (c1_vision_failure_fallback emptyStore 0 c1req hrl hchecks hthermal).2.1⟩

/-- C3: a request passing the rate limiter and all validation whose
classification is non-thermal short-circuits — for every possible vision
outcome the response is the fixed 200-status non-thermal body and the
vision service is never invoked; and an `imageType` of `visual` without
`demoMode` is non-thermal whatever the features say. -/
theorem c3_nonthermal_short_circuit (store : RateStore) (now : ℕ)
    (req : RequestInput) (vision : VisionOutcome)
    (hrl : (rateLimitStep (store req.clientIp) now).1 = .proceed)
    (hchecks : passesChecks req)
    (hnot : isThermalImage req.demoMode req.imageType req.features = false) :
    (handle store now req vision).outcome = .ok nonThermalResponse ∧
    (handle store now req vision).visionInvoked = false ∧
    (handle store now req vision).outcome.status = 200 ∧
    nonThermalResponse.hotspots = [] ∧
    nonThermalResponse.severity = "none" ∧
    nonThermalResponse.confidence = 95 / 100 ∧
    nonThermalResponse.totalHotspots = 0 ∧
    nonThermalResponse.maxTemperature = none ∧
    nonThermalResponse.affectedArea = 0 ∧
    nonThermalResponse.message =
      some "Image does not appear to be a thermal image" ∧
    nonThermalResponse.errorTag = none ∧
    (∀ f : Features, isThermalImage false "visual" f = false) := by
  obtain ⟨h1, h2, h3, h4, h5, h6, h7, h8, h9⟩ := hchecks
  have h2' : ¬ (req.fileSize > MAX_FILE_SIZE) := not_lt.mpr h2
  have hvf : ∀ f : Features, isThermalImage false "visual" f = false := by
    intro f
    simp [isThermalImage]
  simp only [handle, hrl]
  simp [h1, h2', h3, h4, h5, h6, h7, h8, h9, hnot, Outcome.status,
    nonThermalResponse, hvf]

/-- Witness for C3 at a concrete `visual` request. -/
theorem c3_nonthermal_short_circuit_witness :
    (rateLimitStep (emptyStore c3req.clientIp) 0).1 = .proceed ∧
    passesChecks c3req ∧
    isThermalImage c3req.demoMode c3req.imageType c3req.features = false ∧
    (handle emptyStore 0 c3req .err).outcome = .ok nonThermalResponse ∧
    (handle emptyStore 0 c3req .err).visionInvoked = false := by
  have hrl : (rateLimitStep (emptyStore c3req.clientIp) 0).1 = .proceed := by
    simp [rateLimitStep, emptyStore]
  have hchecks : passesChecks c3req := by
    simp [passesChecks, c3req, ALLOWED_FORMATS, MAX_FILE_SIZE, MAX_IMAGE_DIMENSION]
  have hnot : isThermalImage c3req.demoMode c3req.imageType c3req.features
      = false := by
    simp [isThermalImage, RequestInput.demoMode, RequestInput.imageType,
      jsOrStr, c3req]
  have h := c3_nonthermal_short_circuit emptyStore 0 c3req .err hrl hchecks hnot
  exact ⟨hrl, hchecks, hnot, h.1, h.2.1⟩

/-- C6: with a stored entry for the client, a request inside the active
window at or beyond the 100-request cap is rejected as a 429 whose
`retryAfter = ceil((resetTime - now)/1000)` is strictly positive, and a
request at or after the window end resets the entry to count 1 with a
fresh `resetTime = now + RATE_WINDOW` and proceeds past the limiter. -/
theorem c6_rate_limit_window (store : RateStore) (now : ℕ) (req : RequestInput)
    (vision : VisionOutcome) (c rt : ℕ)
    (hentry : store req.clientIp = some ⟨c, rt⟩) :
    (now < rt → RATE_LIMIT ≤ c →
      (handle store now req vision).outcome =
        .rateLimited ⌈((rt - now : ℕ) : ℚ) / 1000⌉ ∧
      0 < ⌈((rt - now : ℕ) : ℚ) / 1000⌉ ∧
      (handle store now req vision).outcome.status = 429) ∧
    (rt ≤ now →
      (handle store now req vision).store req.clientIp =
        some ⟨1, now + RATE_WINDOW⟩ ∧
      (handle store now req vision).outcome.isRateLimited = false) := by
  constructor
  · intro hlt hcap
    have hstep : rateLimitStep (store req.clientIp) now =
        (.reject ⌈((rt - now : ℕ) : ℚ) / 1000⌉, some ⟨c, rt⟩) := by
      simp [rateLimitStep, hentry, hlt, hcap]
    have hpos : 0 < ⌈((rt - now : ℕ) : ℚ) / 1000⌉ := by
      rw [Int.ceil_pos]
      have hq : (0 : ℚ) < ((rt - now : ℕ) : ℚ) := by
        exact_mod_cast Nat.sub_pos_of_lt hlt
      positivity
    refine ⟨?_, hpos, ?_⟩ <;> simp [handle, hstep, Outcome.status]
  · intro hle
    have hnot : ¬ (rt > now ∧ RATE_LIMIT ≤ c) := by
      rintro ⟨hgt, _⟩
      exact absurd hgt (not_lt.mpr hle)
    have hstep : rateLimitStep (store req.clientIp) now =
        (.proceed, some ⟨1, now + RATE_WINDOW⟩) := by
      simp [rateLimitStep, hentry, hle]
    constructor
    · simp only [handle, hstep]
      repeat' split
      all_goals simp
    · simp only [handle, hstep]
      repeat' split
      all_goals simp [Outcome.isRateLimited]

/-- Witness for C6: at t = 1000 ms the 101st request is rejected; at
t = 6000 ms (window elapsed) the entry resets to count 1. -/
theorem c6_rate_limit_window_witness :
    ((1000 : ℕ) < 5000 ∧ RATE_LIMIT ≤ 100) ∧
    (handle c6store 1000 c6req .err).outcome =
      .rateLimited ⌈((5000 - 1000 : ℕ) : ℚ) / 1000⌉ ∧
    0 < ⌈((5000 - 1000 : ℕ) : ℚ) / 1000⌉ ∧
    ((5000 : ℕ) ≤ 6000) ∧
    (handle c6store 6000 c6req .err).store c6req.clientIp =
      some ⟨1, 6000 + RATE_WINDOW⟩ ∧
    (handle c6store 6000 c6req .err).outcome.isRateLimited = false := by
  have hentry : c6store c6req.clientIp = some ⟨100, 5000⟩ := by
    simp [c6store, c6req]
  have h1 := (c6_rate_limit_window c6store 1000 c6req .err 100 5000 hentry).1
    (by norm_num) (by norm_num [RATE_LIMIT])
  have h2 := (c6_rate_limit_window c6store 6000 c6req .err 100 5000 hentry).2
    (by norm_num)
  exact ⟨⟨by norm_num, by norm_num [RATE_LIMIT]⟩, h1.1, h1.2.1,
    by norm_num, h2.1, h2.2⟩

/-- Counterexample to C9: on the inference-failure fallback path the
handler returns a 200 response yet the `[AUDIT]` record is never written
(the source logs it only on the success return and in the outer catch). -/
theorem c9_counterexample :
    (handle emptyStore 0 c1req .err).outcome.status = 200 ∧
    (handle emptyStore 0 c1req .err).auditEmitted = false := by
  simp [handle, rateLimitStep, emptyStore, c1req, Outcome.status,
    isThermalImage, RequestInput.demoMode, ALLOWED_FORMATS, MAX_FILE_SIZE,
    MAX_IMAGE_DIMENSION]

/-- C9 amended: the finalized audit record is emitted exactly on the full
success path (vision invoked and decoded) and on the outer-catch 500 path;
validation rejections, rate-limit rejections, the non-thermal
short-circuit and the inference-failure fallback all respond without
emitting it. -/
theorem c9_audit_emission (store : RateStore) (now : ℕ) (req : RequestInput)
    (vision : VisionOutcome) :
    (handle store now req vision).auditEmitted =
      ((handle store now req vision).outcome.isInternalError ||
       ((handle store now req vision).visionInvoked && vision.isOk)) := by
  simp only [handle]
  repeat' split
  all_goals simp_all [Outcome.isInternalError, VisionOutcome.isOk]

/-- Counterexample to C10: a request that fails validation (no file) still
creates/increments the client's rate-limit entry — the limiter runs before
the validator, not after. -/
theorem c10_counterexample :
    emptyStore c10req.clientIp = none ∧
    (handle emptyStore 0 c10req .err).outcome =
      .badRequest "Please provide a valid image file" ∧
    (handle emptyStore 0 c10req .err).store c10req.clientIp =
      some ⟨1, 0 + RATE_WINDOW⟩ := by
  refine ⟨rfl, ?_, ?_⟩ <;>
    simp [handle, rateLimitStep, emptyStore, c10req]

/-- C10 amended: the components run Rate Limiter first, then Validator —
on every path the stored entry for the client is the one the rate-limit
block leaves behind (created, incremented or reset before any validation
check runs), and a request that fails the file-presence check is rejected
with a 400 only after having passed through the rate-limit counter. -/
theorem c10_rate_limiter_precedes_validation (store : RateStore) (now : ℕ)
    (req : RequestInput) (vision : VisionOutcome) :
    (handle store now req vision).store req.clientIp =
      (rateLimitStep (store req.clientIp) now).2 ∧
    ((rateLimitStep (store req.clientIp) now).1 = .proceed →
      req.hasFile = false →
      (handle store now req vision).outcome =
        .badRequest "Please provide a valid image file") := by
  constructor
  · simp only [handle]
    repeat' split
    all_goals simp
  · intro hrl hbad
    simp [handle, hrl, hbad]

/-- Witness for C10 (amended) at the no-file request. -/
theorem c10_rate_limiter_precedes_validation_witness :
    (rateLimitStep (emptyStore c10req.clientIp) 0).1 = .proceed ∧
    c10req.hasFile = false ∧
    (handle emptyStore 0 c10req .err).outcome =
      .badRequest "Please provide a valid image file" := by
  have hrl : (rateLimitStep (emptyStore c10req.clientIp) 0).1 = .proceed := by
    simp [rateLimitStep, emptyStore]
  exact ⟨hrl, rfl,
    (c10_rate_limiter_precedes_validation emptyStore 0 c10req .err).2 hrl rfl⟩

end Chainfly
